import Mathlib

/- Verification development for the alpaca-ai real-time voice interaction engine.
   Shallow embedding of:
   - src/components/interrupt_detector.py  (VAD/energy hysteresis detector)
   - src/components/output_handler.py      (streaming TTS chunking pipeline, `speak`)
   - src/core/alpaca_interaction.py        (interaction state machine and its own
                                            `_process_tts_buffer` / `_speak` variant)
   - src/components/audio_player.py        (playback engine: drain wait, stop)
   Python `str` values are modelled as `List Char`; machine floats are modelled
   as rationals; the threading.Event interrupt latch is modelled as a monotone
   boolean function of an abstract clock that ticks at every `is_set()` read. -/

namespace AlpacaAI

/-- Python strings are modelled as lists of characters. -/
abbrev Str := List Char

/-- Characters removed by Python `str.strip()` (ASCII whitespace as used here). -/
def isPySpace (c : Char) : Bool :=
  c == ' ' || c == '\t' || c == '\n' || c == '\r' || c == Char.ofNat 11 || c == Char.ofNat 12

/-- Python `s.strip()`: drop whitespace from both ends. -/
def pyStrip (s : Str) : Str :=
  ((s.dropWhile isPySpace).reverse.dropWhile isPySpace).reverse

/-- Python `s.endswith(p)`. -/
def pyEndsWith (s p : Str) : Bool :=
  p.isSuffixOf s

/- ========================================================================
   Interrupt detector: src/components/interrupt_detector.py,
   `_interrupt_listener_run` (lines 87-111).
   ======================================================================== -/

/-- Configuration values read from `audio_validation` config in
`InterruptDetector.__init__` (defaults 300, 3, 0.5). -/
structure DetectorConfig where
  vad_energy_threshold : ℚ
  vad_activation_chunks : ℤ
  vad_confidence_threshold : ℚ
deriving DecidableEq

/-- One captured frame: its RMS energy and the Silero VAD speech probability. -/
structure Frame where
  rms : ℚ
  speech_prob : ℚ
deriving DecidableEq

/-- Detector loop state: the `active_chunks` counter (a Python int, so ℤ) and
the caller's interrupt event latch (`_interrupt_event_ref`). -/
structure DetectorState where
  active_chunks : ℤ
  fired : Bool
deriving DecidableEq, Repr

/-- Line 97: `is_speech_detected = (rms > self.vad_energy_threshold and
speech_prob >= self.vad_confidence_threshold)`. -/
def is_speech_detected (cfg : DetectorConfig) (f : Frame) : Bool :=
  decide (cfg.vad_energy_threshold < f.rms) && decide (cfg.vad_confidence_threshold ≤ f.speech_prob)

/-- One iteration of the listener loop body (lines 99-111): increment the
counter on an active frame, decay it (floored at 0) otherwise; when it reaches
`vad_activation_chunks`, set the event and assign `vad_activation_chunks - 1`. -/
def detector_step (cfg : DetectorConfig) (s : DetectorState) (f : Frame) : DetectorState :=
  let a := if is_speech_detected cfg f then s.active_chunks + 1 else max 0 (s.active_chunks - 1)
  if cfg.vad_activation_chunks ≤ a then
    { active_chunks := cfg.vad_activation_chunks - 1, fired := true }
  else
    { active_chunks := a, fired := s.fired }

/-- Index (0-based) of the frame at which the event first fires, if any,
starting from counter 0 and an unset event. -/
def fire_index_from (cfg : DetectorConfig) (s : DetectorState) : List Frame → Option ℕ
  | [] => none
  | f :: fs =>
    let s' := detector_step cfg s f
    if s'.fired then some 0 else (fire_index_from cfg s' fs).map (· + 1)

/-- Fire index of a frame sequence from the initial detector state. -/
def fire_index (cfg : DetectorConfig) (fs : List Frame) : Option ℕ :=
  fire_index_from cfg ⟨0, false⟩ fs

/-- Concrete configuration of the C3 scenario: energy threshold 300,
activation threshold 3, probability threshold 0.5. -/
def cfgC3 : DetectorConfig := ⟨300, 3, 1/2⟩

/-- The C3 frame scores [0.9, 0.9, 0.1, 0.9, 0.9] with energy 400 (above
threshold) on every frame. -/
def framesC3 : List Frame :=
  [⟨400, 9/10⟩, ⟨400, 9/10⟩, ⟨400, 1/10⟩, ⟨400, 9/10⟩, ⟨400, 9/10⟩]

/-- C3: a frame is active iff RMS energy is strictly above the energy threshold
and the speech probability is at least the probability threshold; the counter
gains 1 on an active frame and loses 1 (floored at 0) on an inactive one; on
reaching the activation threshold the signal fires and the counter is
decremented by 1 rather than reset; with activation_threshold=3, probability
threshold 0.5 and scores [0.9, 0.9, 0.1, 0.9, 0.9] (energy above threshold
throughout), the signal fires exactly at frame index 4 and not earlier. -/
theorem C3_detector_hysteresis :
    (∀ cfg f, is_speech_detected cfg f = true ↔
      (cfg.vad_energy_threshold < f.rms ∧ cfg.vad_confidence_threshold ≤ f.speech_prob))
    ∧ (∀ cfg s f, is_speech_detected cfg f = true →
        s.active_chunks + 1 < cfg.vad_activation_chunks →
        detector_step cfg s f = { active_chunks := s.active_chunks + 1, fired := s.fired })
    ∧ (∀ cfg s f, is_speech_detected cfg f = false →
        max 0 (s.active_chunks - 1) < cfg.vad_activation_chunks →
        detector_step cfg s f = { active_chunks := max 0 (s.active_chunks - 1), fired := s.fired })
    ∧ (∀ cfg s f, is_speech_detected cfg f = true →
        s.active_chunks + 1 = cfg.vad_activation_chunks →
        detector_step cfg s f = { active_chunks := s.active_chunks + 1 - 1, fired := true })
    ∧ fire_index cfgC3 framesC3 = some 4 := by
  refine ⟨?_, ?_, ?_, ?_, ?_⟩
  · intro cfg f
    simp [is_speech_detected]
  · intro cfg s f hact hlt
    simp only [detector_step, hact, if_true]
    rw [if_neg (by omega)]
  · intro cfg s f hact hlt
    simp only [detector_step, hact, if_false, Bool.false_eq_true]
    rw [if_neg (by omega)]
  · intro cfg s f hact heq
    simp only [detector_step, hact, if_true]
    rw [if_pos (by omega)]
    simp [← heq]
  · norm_num [fire_index, fire_index_from, detector_step, is_speech_detected, cfgC3, framesC3]

/-- Concrete instantiation of the hypotheses of C3_detector_hysteresis:
with the C3 configuration, an active frame at counter 1 increments to 2 without
firing, an inactive frame at counter 1 decays to 0, and an active frame at
counter 2 reaches the threshold 3, fires, and leaves the counter at 2. -/
theorem C3_witness :
    detector_step cfgC3 ⟨1, false⟩ ⟨400, 9/10⟩ = ⟨2, false⟩
    ∧ detector_step cfgC3 ⟨1, false⟩ ⟨400, 1/10⟩ = ⟨0, false⟩
    ∧ detector_step cfgC3 ⟨2, false⟩ ⟨400, 9/10⟩ = ⟨2, true⟩ := by
  refine ⟨?_, ?_, ?_⟩
  · exact C3_detector_hysteresis.2.1 cfgC3 ⟨1, false⟩ ⟨400, 9/10⟩
      (by norm_num [is_speech_detected, cfgC3]) (by norm_num [cfgC3])
  · exact C3_detector_hysteresis.2.2.1 cfgC3 ⟨1, false⟩ ⟨400, 1/10⟩
      (by norm_num [is_speech_detected, cfgC3]) (by norm_num [cfgC3])
  · exact C3_detector_hysteresis.2.2.2.1 cfgC3 ⟨2, false⟩ ⟨400, 9/10⟩
      (by norm_num [is_speech_detected, cfgC3]) (by norm_num [cfgC3])

/- ========================================================================
   Chunking & streaming synthesis pipeline:
   src/components/output_handler.py (`_process_tts_buffer`, `speak`) and the
   variant in src/core/alpaca_interaction.py (`_process_tts_buffer`, `_speak`).
   The outcome of one `tts_handler.synthesize(chunk)` call is an oracle
   `synth : Str → SynthResult`; the interrupt latch is a monotone function
   `fired : ℕ → Bool` of a clock that ticks at every `is_set()` read.
   ======================================================================== -/

/-- Outcome of a `tts_handler.synthesize(chunk)` call: an audio buffer of a
given length (0 models `None`/empty audio), or an exception. -/
inductive SynthResult where
  | ok (audioLen : ℕ)
  | raises
deriving DecidableEq

/-- Whether the synthesize call raised. -/
def SynthResult.isRaise : SynthResult → Bool
  | .raises => true
  | .ok _ => false

/-- The `sentence_ends` tuple of both `_process_tts_buffer` variants. The last
entry is the literal three-character sequence found in the source (the UTF-8
bytes of an en dash mis-decoded as cp1252: "â", "€", "“"), not the en dash. -/
def sentence_ends : List Str :=
  [".".toList, "!".toList, "?".toList, "\n".toList, ",".toList, ";".toList,
   "â€“".toList]

/-- Python `any(tts_buffer.endswith(punc) for punc in sentence_ends)`. -/
def endsWithSentenceEnd (s : Str) : Bool :=
  sentence_ends.any fun p => pyEndsWith s p

/-- Python `tts_buffer.count(' ') + 1` (the pipeline's word count). -/
def wordCount (s : Str) : ℕ :=
  s.count ' ' + 1

/-- The source hardcodes `approx_words_for_initial_chunk = 8` in both
`_process_tts_buffer` variants; the spec calls it initial_chunk_target_words.
It is a parameter here so the spec's concrete example (target 3) is statable. -/
structure SpeakConfig where
  approx_words_for_initial_chunk : ℕ
deriving DecidableEq

/-- The configuration actually used by the source. -/
def cfgSrc : SpeakConfig := ⟨8⟩

/-- Cut decision of `_process_tts_buffer` (lines 37-43 of output_handler.py):
before the first emission, cut on word count or a trailing delimiter;
afterwards only on a trailing delimiter. -/
def decideCut (cfg : SpeakConfig) (tts_buffer : Str) (initial_words_spoken : Bool) : Bool :=
  if !initial_words_spoken then
    decide (cfg.approx_words_for_initial_chunk ≤ wordCount tts_buffer)
      || endsWithSentenceEnd tts_buffer
  else
    endsWithSentenceEnd tts_buffer

/-- State threaded through `speak`: the clock (ticks at every
`interrupt_event.is_set()` read), accumulated `full_response_text` and
`tts_buffer`, the two flags, the playback enqueues (read-time, chunk), the
chunks passed to `synthesize`, and (ghost) the raw buffer at each cut. -/
structure SpeakState where
  clock : ℕ
  full_text : Str
  tts_buffer : Str
  initial_words_spoken : Bool
  interrupted : Bool
  enqueues : List (ℕ × Str)
  synth_calls : List Str
  segments : List Str
deriving DecidableEq

/-- Initial state of a `speak` call. -/
def initState : SpeakState :=
  ⟨0, [], [], false, false, [], [], []⟩

/-- OutputHandler._process_tts_buffer (output_handler.py lines 24-106): on a
cut, strip the buffer, synthesize; a synthesis exception sets `interrupted`
(lines 99-102); otherwise read the interrupt event — if set, drop the chunk
and mark interrupted; if unset and the audio is non-empty, enqueue it. -/
def processTtsBuffer (cfg : SpeakConfig) (fired : ℕ → Bool) (synth : Str → SynthResult)
    (s : SpeakState) : SpeakState :=
  if decideCut cfg s.tts_buffer s.initial_words_spoken && !(pyStrip s.tts_buffer).isEmpty then
    let chunk := pyStrip s.tts_buffer
    let s1 := { s with tts_buffer := [], initial_words_spoken := true,
                       synth_calls := s.synth_calls ++ [chunk],
                       segments := s.segments ++ [s.tts_buffer] }
    match synth chunk with
    | .raises => { s1 with interrupted := true }
    | .ok n =>
      if fired s1.clock then
        { s1 with clock := s1.clock + 1, interrupted := true }
      else if 0 < n then
        { s1 with clock := s1.clock + 1, enqueues := s1.enqueues ++ [(s1.clock, chunk)] }
      else
        { s1 with clock := s1.clock + 1 }
  else s

/-- AlpacaInteraction._process_tts_buffer (alpaca_interaction.py lines
105-142): identical cut logic, but a synthesis exception is only logged — the
pipeline continues and `interrupted` is left unchanged (lines 135-137). -/
def alpacaProcessTtsBuffer (cfg : SpeakConfig) (fired : ℕ → Bool) (synth : Str → SynthResult)
    (s : SpeakState) : SpeakState :=
  if decideCut cfg s.tts_buffer s.initial_words_spoken && !(pyStrip s.tts_buffer).isEmpty then
    let chunk := pyStrip s.tts_buffer
    let s1 := { s with tts_buffer := [], initial_words_spoken := true,
                       synth_calls := s.synth_calls ++ [chunk],
                       segments := s.segments ++ [s.tts_buffer] }
    match synth chunk with
    | .raises => s1
    | .ok n =>
      if fired s1.clock then
        { s1 with clock := s1.clock + 1, interrupted := true }
      else if 0 < n then
        { s1 with clock := s1.clock + 1, enqueues := s1.enqueues ++ [(s1.clock, chunk)] }
      else
        { s1 with clock := s1.clock + 1 }
  else s

/-- The token loop shared by the sync and async generator branches of both
speak variants: check the interrupt event (break if set), append the token to
`full_response_text` and `tts_buffer`, run the chunk helper, break if it
reported an interrupt. -/
def speakLoopGen (step : SpeakState → SpeakState) (fired : ℕ → Bool) :
    List Str → SpeakState → SpeakState
  | [], s => s
  | t :: ts, s =>
    if fired s.clock then
      { s with clock := s.clock + 1, interrupted := true }
    else
      let s2 := step { s with clock := s.clock + 1,
                              full_text := s.full_text ++ t,
                              tts_buffer := s.tts_buffer ++ t }
      if s2.interrupted then s2 else speakLoopGen step fired ts s2

/-- OutputHandler.speak on a generator source (output_handler.py lines
171-222): run the token loop, then — when not interrupted and the stripped
buffer is non-empty — pass `tts_buffer.strip()` through `_process_tts_buffer`
once more (which re-applies the cut decision). -/
def speakOut (cfg : SpeakConfig) (fired : ℕ → Bool) (synth : Str → SynthResult)
    (tokens : List Str) : SpeakState :=
  let s := speakLoopGen (processTtsBuffer cfg fired synth) fired tokens initState
  if !s.interrupted && !(pyStrip s.tts_buffer).isEmpty then
    processTtsBuffer cfg fired synth { s with tts_buffer := pyStrip s.tts_buffer }
  else s

/-- Final status of OutputHandler.speak on a generator source (lines 157,
224-236): `final_status_code` starts as "ERROR" and, when not interrupted, is
set to "COMPLETED" only under `final_status_code != "ERROR"` — which is never
true on the generator path, so a clean run returns "ERROR". -/
def speakOutStatus (s : SpeakState) : String :=
  if s.interrupted then "INTERRUPTED" else "ERROR"

/-- Final-buffer handling of AlpacaInteraction._speak (lines 220-231): when
not interrupted and the stripped buffer is non-empty, synthesize
`tts_buffer.strip()` directly — no cut decision is re-applied — with
exceptions only logged, and play the audio unless the event is set. -/
def alpacaFlush (fired : ℕ → Bool) (synth : Str → SynthResult) (s : SpeakState) : SpeakState :=
  if !s.interrupted && !(pyStrip s.tts_buffer).isEmpty then
    let chunk := pyStrip s.tts_buffer
    let s1 := { s with synth_calls := s.synth_calls ++ [chunk],
                       segments := s.segments ++ [s.tts_buffer] }
    match synth chunk with
    | .raises => s1
    | .ok n =>
      if !(fired s1.clock) && decide (0 < n) then
        { s1 with clock := s1.clock + 1, enqueues := s1.enqueues ++ [(s1.clock, chunk)] }
      else
        { s1 with clock := s1.clock + 1 }
  else s

/-- The playback wait (alpaca_interaction.py lines 234-239): when not already
interrupted, `drains = true` means playback drained before the 60 s deadline
and the state is unchanged; `drains = false` means the deadline or an
interrupt fired during the wait, which sets `interrupted`. -/
def alpacaWait (drains : Bool) (s : SpeakState) : SpeakState :=
  if s.interrupted then s else if drains then s else { s with interrupted := true }

/-- AlpacaInteraction._speak on a generator source (alpaca_interaction.py
lines 168-248): token loop, final flush, playback wait. -/
def alpacaSpeak (cfg : SpeakConfig) (fired : ℕ → Bool) (synth : Str → SynthResult)
    (drains : Bool) (tokens : List Str) : SpeakState :=
  alpacaWait drains
    (alpacaFlush fired synth
      (speakLoopGen (alpacaProcessTtsBuffer cfg fired synth) fired tokens initState))

/-- Final status of AlpacaInteraction._speak (lines 242-248). -/
def alpacaSpeakStatus (s : SpeakState) : String :=
  if s.interrupted then "INTERRUPTED" else "COMPLETED"

/-- An interrupt signal that never fires. -/
def fired0 : ℕ → Bool := fun _ => false

/-- A synthesizer that always succeeds with non-empty audio. -/
def synthOk1 : Str → SynthResult := fun _ => .ok 1

/-- A synthesizer that raises on every chunk. -/
def synthFailAll : Str → SynthResult := fun _ => .raises

/-- Cut decision rewritten in the spec's case split (before/after the first
emission). -/
lemma decideCut_eq (cfg : SpeakConfig) (b : Str) (i : Bool) :
    decideCut cfg b i
      = ((!i && (decide (cfg.approx_words_for_initial_chunk ≤ wordCount b)
                  || endsWithSentenceEnd b))
         || (i && endsWithSentenceEnd b)) := by
  cases i <;> simp [decideCut]

/-- The chunk helper appends exactly one synthesize call when the cut rule
fires on a non-blank buffer, and none otherwise. -/
lemma processTtsBuffer_calls (cfg : SpeakConfig) (fired : ℕ → Bool)
    (synth : Str → SynthResult) (s : SpeakState) :
    (processTtsBuffer cfg fired synth s).synth_calls
      = s.synth_calls
        ++ (if (decideCut cfg s.tts_buffer s.initial_words_spoken
                 && !(pyStrip s.tts_buffer).isEmpty) = true
            then [pyStrip s.tts_buffer] else []) := by
  unfold processTtsBuffer
  split
  · dsimp only
    cases hs : synth (pyStrip s.tts_buffer) with
    | ok n =>
      simp only [hs]
      split <;> (try split) <;> simp
    | raises => simp [hs]
  · simp

/-- Tokens of the C7 boundary-check example. -/
def c7Toks : List Str :=
  ["Hi", " there", ", ", "how", " are", " you", "?"].map String.toList

/-- C7 (amended): a chunk is cut exactly when the cut rule fires — before the
first emission, word count (spaces+1) at least the target or a trailing
delimiter; afterwards only a trailing delimiter — AND the buffer is non-blank;
the delimiter set is . ! ? newline , ; plus the mojibake sequence "â€“" (an en
dash does NOT cut); the chunk text is the whitespace-stripped buffer, so with
target 3 the first cut of the example token stream is exactly "Hi there,". -/
theorem C7_cut_rule :
    (∀ cfg fired synth (s : SpeakState),
      (processTtsBuffer cfg fired synth s).synth_calls
        = s.synth_calls
          ++ (if (((!s.initial_words_spoken
                     && (decide (cfg.approx_words_for_initial_chunk ≤ wordCount s.tts_buffer)
                         || endsWithSentenceEnd s.tts_buffer))
                   || (s.initial_words_spoken && endsWithSentenceEnd s.tts_buffer))
                  && !(pyStrip s.tts_buffer).isEmpty) = true
              then [pyStrip s.tts_buffer] else []))
    ∧ endsWithSentenceEnd "ab–".toList = false
    ∧ endsWithSentenceEnd "abâ€“".toList = true
    ∧ (speakOut ⟨3⟩ fired0 synthOk1 c7Toks).synth_calls.head? = some "Hi there,".toList := by
  refine ⟨?_, ?_, ?_, ?_⟩
  · intro cfg fired synth s
    rw [processTtsBuffer_calls, decideCut_eq]
  · decide
  · decide
  · decide

/-- C7 counterexample: with initial_chunk_target_words = 3 on the token
sequence ["Hi", " there", ", ", "how", " are", " you", "?"], the first chunk
passed to synthesize is "Hi there," (the buffer is stripped before synthesis),
not "Hi there, " as the claim states. -/
theorem C7_counterexample :
    (speakOut ⟨3⟩ fired0 synthOk1 c7Toks).synth_calls.head? ≠ some "Hi there, ".toList
    ∧ (speakOut ⟨3⟩ fired0 synthOk1 c7Toks).synth_calls.head? = some "Hi there,".toList := by
  exact ⟨by decide, by decide⟩

/-- One helper step never loses or duplicates buffered text: the concatenation
of cut segments plus the live buffer is invariant. -/
lemma processTtsBuffer_text_inv (cfg : SpeakConfig) (fired : ℕ → Bool)
    (synth : Str → SynthResult) (s : SpeakState) :
    (processTtsBuffer cfg fired synth s).segments.flatten
        ++ (processTtsBuffer cfg fired synth s).tts_buffer
      = s.segments.flatten ++ s.tts_buffer := by
  unfold processTtsBuffer
  split
  · dsimp only
    cases hs : synth (pyStrip s.tts_buffer) <;> simp only [hs] <;>
      (try split) <;> (try split) <;> simp
  · rfl

/-- One helper step keeps synthesize calls in lock-step with segments: every
chunk is the stripped form of its raw segment. -/
lemma processTtsBuffer_calls_strip (cfg : SpeakConfig) (fired : ℕ → Bool)
    (synth : Str → SynthResult) (s : SpeakState)
    (h : s.synth_calls = s.segments.map pyStrip) :
    (processTtsBuffer cfg fired synth s).synth_calls
      = (processTtsBuffer cfg fired synth s).segments.map pyStrip := by
  unfold processTtsBuffer
  split
  · dsimp only
    cases hs : synth (pyStrip s.tts_buffer) <;> simp only [hs] <;>
      (try split) <;> (try split) <;> simp [h]
  · exact h

/-- With a never-firing signal and a never-raising synthesizer, one helper
step cannot set the interrupted flag. -/
lemma processTtsBuffer_no_interrupt (cfg : SpeakConfig) (synth : Str → SynthResult)
    (s : SpeakState) (hok : ∀ c, (synth c).isRaise = false)
    (h : s.interrupted = false) :
    (processTtsBuffer cfg fired0 synth s).interrupted = false := by
  unfold processTtsBuffer
  split
  · dsimp only
    cases hs : synth (pyStrip s.tts_buffer) with
    | ok n =>
      simp only [hs]
      split <;> (try split) <;> simp_all [fired0]
    | raises =>
      have := hok (pyStrip s.tts_buffer)
      rw [hs] at this
      exact absurd this (by simp [SynthResult.isRaise])
  · exact h

/-- Loop invariant for OutputHandler.speak under no interrupt and no
synthesis failure: the loop never aborts, text is preserved into segments plus
the live buffer, and chunks stay the stripped segments. -/
lemma speakLoop_out_inv (cfg : SpeakConfig) (synth : Str → SynthResult)
    (hok : ∀ c, (synth c).isRaise = false) :
    ∀ (ts : List Str) (s : SpeakState), s.interrupted = false →
      (speakLoopGen (processTtsBuffer cfg fired0 synth) fired0 ts s).interrupted = false
      ∧ ((speakLoopGen (processTtsBuffer cfg fired0 synth) fired0 ts s).segments.flatten
          ++ (speakLoopGen (processTtsBuffer cfg fired0 synth) fired0 ts s).tts_buffer
        = s.segments.flatten ++ s.tts_buffer ++ ts.flatten)
      ∧ (s.synth_calls = s.segments.map pyStrip →
          (speakLoopGen (processTtsBuffer cfg fired0 synth) fired0 ts s).synth_calls
            = (speakLoopGen (processTtsBuffer cfg fired0 synth) fired0 ts s).segments.map pyStrip)
  | [], s => by
    intro h
    refine ⟨h, by simp [speakLoopGen], fun hc => hc⟩
  | t :: ts, s => by
    intro h
    have hstep : (processTtsBuffer cfg fired0 synth
        { s with clock := s.clock + 1,
                 full_text := s.full_text ++ t,
                 tts_buffer := s.tts_buffer ++ t }).interrupted = false :=
      processTtsBuffer_no_interrupt cfg synth _ hok h
    have htext := processTtsBuffer_text_inv cfg fired0 synth
        { s with clock := s.clock + 1,
                 full_text := s.full_text ++ t,
                 tts_buffer := s.tts_buffer ++ t }
    have ih := speakLoop_out_inv cfg synth hok ts
        (processTtsBuffer cfg fired0 synth
          { s with clock := s.clock + 1,
                   full_text := s.full_text ++ t,
                   tts_buffer := s.tts_buffer ++ t }) hstep
    rw [speakLoopGen]
    simp only [fired0, Bool.false_eq_true, if_false, hstep]
    refine ⟨ih.1, ?_, fun hc => ?_⟩
    · rw [ih.2.1, htext]
      simp [List.append_assoc]
    · exact ih.2.2 (processTtsBuffer_calls_strip cfg fired0 synth _ hc)

/-- C4 (amended): for a stream processed to completion (no interrupt, no
synthesis failure), the raw buffer segments consumed by the cuts concatenate
with the leftover buffer to exactly the input token concatenation — nothing
lost or duplicated before stripping — and every chunk passed to synthesize
(final flush included) is the whitespace-stripped form of its segment;
whitespace stripped at cut boundaries is therefore dropped from the chunk
texts, and the leftover is passed at all only if the cut rule fires on its
stripped form. -/
theorem C4_chunk_concatenation (cfg : SpeakConfig) (synth : Str → SynthResult)
    (hok : ∀ c, (synth c).isRaise = false) (ts : List Str) :
    ((speakLoopGen (processTtsBuffer cfg fired0 synth) fired0 ts initState).segments.flatten
        ++ (speakLoopGen (processTtsBuffer cfg fired0 synth) fired0 ts initState).tts_buffer
      = ts.flatten)
    ∧ (speakOut cfg fired0 synth ts).synth_calls
        = (speakOut cfg fired0 synth ts).segments.map pyStrip := by
  have h := speakLoop_out_inv cfg synth hok ts initState rfl
  refine ⟨by simpa [initState] using h.2.1, ?_⟩
  have hc := h.2.2 rfl
  unfold speakOut
  dsimp only
  split
  · exact processTtsBuffer_calls_strip cfg fired0 synth _ hc
  · exact hc

/-- Tokens of the C4 counterexample. -/
def c4Toks : List Str := ["Hi,", " there"].map String.toList

/-- Concrete instantiation of C4_chunk_concatenation at the counterexample
tokens with an always-succeeding synthesizer. -/
theorem C4_witness :
    (speakOut cfgSrc fired0 synthOk1 c4Toks).synth_calls
      = (speakOut cfgSrc fired0 synthOk1 c4Toks).segments.map pyStrip :=
  (C4_chunk_concatenation cfgSrc synthOk1 (fun _ => rfl) c4Toks).2

/-- C4 counterexample: on tokens ["Hi,", " there"] the chunks passed to
synthesize concatenate to "Hi," while the input concatenates to "Hi, there" —
the stripped space is lost and the trailing non-delimited text is never
synthesized at all, refuting exact reproduction. -/
theorem C4_counterexample :
    (speakOut cfgSrc fired0 synthOk1 c4Toks).synth_calls.flatten = "Hi,".toList
    ∧ c4Toks.flatten = "Hi, there".toList
    ∧ "Hi,".toList ≠ "Hi, there".toList := by
  exact ⟨by decide, by decide, by decide⟩

/-- The alpaca chunk helper never sets the interrupted flag when the signal
never fires — a synthesis exception included (lines 135-137 log and fall
through). -/
lemma alpacaStep_no_interrupt (cfg : SpeakConfig) (synth : Str → SynthResult)
    (s : SpeakState) (h : s.interrupted = false) :
    (alpacaProcessTtsBuffer cfg fired0 synth s).interrupted = false := by
  unfold alpacaProcessTtsBuffer
  split
  · dsimp only
    cases hs : synth (pyStrip s.tts_buffer) with
    | ok n =>
      simp only [hs]
      split <;> (try split) <;> simp_all [fired0]
    | raises => simpa [hs] using h
  · exact h

/-- The alpaca chunk helper never touches `full_response_text`. -/
lemma alpacaStep_full_text (cfg : SpeakConfig) (fired : ℕ → Bool)
    (synth : Str → SynthResult) (s : SpeakState) :
    (alpacaProcessTtsBuffer cfg fired synth s).full_text = s.full_text := by
  unfold alpacaProcessTtsBuffer
  split
  · dsimp only
    cases hs : synth (pyStrip s.tts_buffer) with
    | ok n =>
      simp only [hs]
      split <;> (try split) <;> rfl
    | raises => simp [hs]
  · rfl

/-- Loop invariant for AlpacaInteraction._speak under a never-firing signal:
regardless of synthesis failures, every token is consumed, the flag stays
clear, and the full text is the concatenation of all tokens. -/
lemma alpacaLoop_inv (cfg : SpeakConfig) (synth : Str → SynthResult) :
    ∀ (ts : List Str) (s : SpeakState), s.interrupted = false →
      (speakLoopGen (alpacaProcessTtsBuffer cfg fired0 synth) fired0 ts s).interrupted = false
      ∧ (speakLoopGen (alpacaProcessTtsBuffer cfg fired0 synth) fired0 ts s).full_text
        = s.full_text ++ ts.flatten
  | [], s => by
    intro h
    exact ⟨h, by simp [speakLoopGen]⟩
  | t :: ts, s => by
    intro h
    have hstep := alpacaStep_no_interrupt cfg synth
      { s with clock := s.clock + 1,
               full_text := s.full_text ++ t,
               tts_buffer := s.tts_buffer ++ t } h
    have htext := alpacaStep_full_text cfg fired0 synth
      { s with clock := s.clock + 1,
               full_text := s.full_text ++ t,
               tts_buffer := s.tts_buffer ++ t }
    have ih := alpacaLoop_inv cfg synth ts
      (alpacaProcessTtsBuffer cfg fired0 synth
        { s with clock := s.clock + 1,
                 full_text := s.full_text ++ t,
                 tts_buffer := s.tts_buffer ++ t }) hstep
    rw [speakLoopGen]
    simp only [fired0, Bool.false_eq_true, if_false, hstep]
    refine ⟨ih.1, ?_⟩
    rw [ih.2, htext]
    simp

/-- The alpaca final flush preserves the interrupted flag and the full text. -/
lemma alpacaFlush_inv (fired : ℕ → Bool) (synth : Str → SynthResult) (s : SpeakState) :
    (alpacaFlush fired synth s).interrupted = s.interrupted
    ∧ (alpacaFlush fired synth s).full_text = s.full_text := by
  unfold alpacaFlush
  split
  · dsimp only
    cases hs : synth (pyStrip s.tts_buffer) with
    | ok n =>
      simp only [hs]
      split <;> simp
    | raises => simp [hs]
  · exact ⟨rfl, rfl⟩

/-- The playback wait with a draining worker changes nothing. -/
lemma alpacaWait_drains (s : SpeakState) : alpacaWait true s = s := by
  unfold alpacaWait
  split <;> simp

/-- The output chunk helper keeps `interrupted` equal to "some synthesize call
has raised" when the signal never fires. -/
lemma outStep_raise_iff (cfg : SpeakConfig) (synth : Str → SynthResult) (s : SpeakState)
    (h : s.interrupted = (s.synth_calls.any fun c => (synth c).isRaise)) :
    (processTtsBuffer cfg fired0 synth s).interrupted
      = ((processTtsBuffer cfg fired0 synth s).synth_calls.any fun c => (synth c).isRaise) := by
  unfold processTtsBuffer
  split
  · dsimp only
    cases hs : synth (pyStrip s.tts_buffer) with
    | ok n =>
      simp only [hs]
      split
      · next hf => simp [fired0] at hf
      · split <;> simp [List.any_append, hs, SynthResult.isRaise, h]
    | raises => simp [List.any_append, hs, SynthResult.isRaise]
  · exact h

/-- Loop version of outStep_raise_iff. -/
lemma outLoop_raise_iff (cfg : SpeakConfig) (synth : Str → SynthResult) :
    ∀ (ts : List Str) (s : SpeakState),
      s.interrupted = (s.synth_calls.any fun c => (synth c).isRaise) →
      (speakLoopGen (processTtsBuffer cfg fired0 synth) fired0 ts s).interrupted
        = ((speakLoopGen (processTtsBuffer cfg fired0 synth) fired0 ts s).synth_calls.any
            fun c => (synth c).isRaise)
  | [], s => fun h => h
  | t :: ts, s => by
    intro h
    have hstep := outStep_raise_iff cfg synth
      { s with clock := s.clock + 1,
               full_text := s.full_text ++ t,
               tts_buffer := s.tts_buffer ++ t } h
    rw [speakLoopGen]
    simp only [fired0, Bool.false_eq_true, if_false]
    split
    · next hint => exact hstep
    · exact outLoop_raise_iff cfg synth ts _ hstep

/-- C1 (amended): with no interrupt, AlpacaInteraction._speak survives any
pattern of per-chunk synthesis exceptions — every token is consumed, the full
text is returned, and the status is COMPLETED (failure logged, chunk dropped,
pipeline continues); in OutputHandler.speak, by contrast, the interrupted flag
ends up set exactly when some chunk's synthesize call raised, so one bad chunk
aborts the stream and flips the turn status to INTERRUPTED. -/
theorem C1_synthesis_failure (cfg : SpeakConfig) (synth : Str → SynthResult) (ts : List Str) :
    (alpacaSpeak cfg fired0 synth true ts).interrupted = false
    ∧ (alpacaSpeak cfg fired0 synth true ts).full_text = ts.flatten
    ∧ alpacaSpeakStatus (alpacaSpeak cfg fired0 synth true ts) = "COMPLETED"
    ∧ ((speakOut cfg fired0 synth ts).interrupted
        = ((speakOut cfg fired0 synth ts).synth_calls.any fun c => (synth c).isRaise)) := by
  have hloop := alpacaLoop_inv cfg synth ts initState rfl
  have hflush := alpacaFlush_inv fired0 synth
    (speakLoopGen (alpacaProcessTtsBuffer cfg fired0 synth) fired0 ts initState)
  have hint : (alpacaSpeak cfg fired0 synth true ts).interrupted = false := by
    unfold alpacaSpeak
    rw [alpacaWait_drains, hflush.1, hloop.1]
  refine ⟨hint, ?_, ?_, ?_⟩
  · unfold alpacaSpeak
    rw [alpacaWait_drains, hflush.2, hloop.2]
    simp [initState]
  · unfold alpacaSpeakStatus
    rw [hint]
    rfl
  · have hl := outLoop_raise_iff cfg synth ts initState rfl
    unfold speakOut
    dsimp only
    split
    · exact outStep_raise_iff cfg synth _ hl
    · exact hl

/-- Tokens of the C1 counterexample. -/
def c1Toks : List Str := ["Hi.", " Bye."].map String.toList

/-- C1 counterexample: in OutputHandler.speak, when synthesize raises on the
first chunk "Hi.", the exception handler sets the interrupted flag (lines
99-102), the loop breaks — the token " Bye." is never consumed — and the turn
returns status INTERRUPTED, whereas the same stream with a healthy
synthesizer ends un-interrupted. -/
theorem C1_counterexample :
    (speakOut cfgSrc fired0 synthFailAll c1Toks).interrupted = true
    ∧ speakOutStatus (speakOut cfgSrc fired0 synthFailAll c1Toks) = "INTERRUPTED"
    ∧ (speakOut cfgSrc fired0 synthFailAll c1Toks).full_text = "Hi.".toList
    ∧ c1Toks.flatten = "Hi. Bye.".toList
    ∧ "Hi.".toList ≠ "Hi. Bye.".toList
    ∧ (speakOut cfgSrc fired0 synthOk1 c1Toks).interrupted = false := by
  refine ⟨by decide, by decide, by decide, by decide, by decide, by decide⟩

/-- The output chunk helper only records enqueues whose interrupt-event read
returned false. -/
lemma outStep_enqueues (cfg : SpeakConfig) (fired : ℕ → Bool) (synth : Str → SynthResult)
    (s : SpeakState) (h : ∀ p ∈ s.enqueues, fired p.1 = false) :
    ∀ p ∈ (processTtsBuffer cfg fired synth s).enqueues, fired p.1 = false := by
  unfold processTtsBuffer
  split
  · dsimp only
    cases hs : synth (pyStrip s.tts_buffer) with
    | ok n =>
      simp only [hs]
      split
      · exact fun p hp => h p hp
      · split
        · next hf _ =>
          intro p hp
          simp only [List.mem_append, List.mem_singleton] at hp
          rcases hp with hp | hp
          · exact h p hp
          · subst hp
            exact Bool.not_eq_true _ ▸ by simpa using hf
        · exact fun p hp => h p hp
    | raises => simpa [hs] using h
  · exact h

/-- Loop version of outStep_enqueues. -/
lemma outLoop_enqueues (cfg : SpeakConfig) (fired : ℕ → Bool) (synth : Str → SynthResult) :
    ∀ (ts : List Str) (s : SpeakState),
      (∀ p ∈ s.enqueues, fired p.1 = false) →
      ∀ p ∈ (speakLoopGen (processTtsBuffer cfg fired synth) fired ts s).enqueues,
        fired p.1 = false
  | [], _s => fun h => h
  | t :: ts, s => by
    intro h p hp
    rw [speakLoopGen] at hp
    split at hp
    · exact h p hp
    · have hstep := outStep_enqueues cfg fired synth
        { s with clock := s.clock + 1,
                 full_text := s.full_text ++ t,
                 tts_buffer := s.tts_buffer ++ t } h
      dsimp only at hp
      split at hp
      · exact hstep p hp
      · exact outLoop_enqueues cfg fired synth ts _ hstep p hp

/-- Every enqueue `speakOut` performs carries a read of the interrupt event
that returned false. -/
lemma speakOut_enqueues (cfg : SpeakConfig) (fired : ℕ → Bool) (synth : Str → SynthResult)
    (ts : List Str) :
    ∀ p ∈ (speakOut cfg fired synth ts).enqueues, fired p.1 = false := by
  have hl := outLoop_enqueues cfg fired synth ts initState (by simp [initState])
  unfold speakOut
  dsimp only
  split
  · exact outStep_enqueues cfg fired synth _ hl
  · exact hl

/-- The alpaca chunk helper only records `play_audio` enqueues whose
interrupt-event read returned false (alpaca_interaction.py lines 128-132). -/
lemma alpacaStep_enqueues (cfg : SpeakConfig) (fired : ℕ → Bool) (synth : Str → SynthResult)
    (s : SpeakState) (h : ∀ p ∈ s.enqueues, fired p.1 = false) :
    ∀ p ∈ (alpacaProcessTtsBuffer cfg fired synth s).enqueues, fired p.1 = false := by
  unfold alpacaProcessTtsBuffer
  split
  · dsimp only
    cases hs : synth (pyStrip s.tts_buffer) with
    | ok n =>
      simp only [hs]
      split
      · exact fun p hp => h p hp
      · split
        · next hf _ =>
          intro p hp
          simp only [List.mem_append, List.mem_singleton] at hp
          rcases hp with hp | hp
          · exact h p hp
          · subst hp
            exact Bool.not_eq_true _ ▸ by simpa using hf
        · exact fun p hp => h p hp
    | raises => simpa [hs] using h
  · exact h

/-- Loop version of alpacaStep_enqueues. -/
lemma alpacaLoop_enqueues (cfg : SpeakConfig) (fired : ℕ → Bool) (synth : Str → SynthResult) :
    ∀ (ts : List Str) (s : SpeakState),
      (∀ p ∈ s.enqueues, fired p.1 = false) →
      ∀ p ∈ (speakLoopGen (alpacaProcessTtsBuffer cfg fired synth) fired ts s).enqueues,
        fired p.1 = false
  | [], _s => fun h => h
  | t :: ts, s => by
    intro h p hp
    rw [speakLoopGen] at hp
    split at hp
    · exact h p hp
    · have hstep := alpacaStep_enqueues cfg fired synth
        { s with clock := s.clock + 1,
                 full_text := s.full_text ++ t,
                 tts_buffer := s.tts_buffer ++ t } h
      dsimp only at hp
      split at hp
      · exact hstep p hp
      · exact alpacaLoop_enqueues cfg fired synth ts _ hstep p hp

/-- The alpaca final flush only plays the leftover chunk when its
interrupt-event read returned false (alpaca_interaction.py lines 224-226). -/
lemma alpacaFlush_enqueues (fired : ℕ → Bool) (synth : Str → SynthResult)
    (s : SpeakState) (h : ∀ p ∈ s.enqueues, fired p.1 = false) :
    ∀ p ∈ (alpacaFlush fired synth s).enqueues, fired p.1 = false := by
  unfold alpacaFlush
  split
  · dsimp only
    cases hs : synth (pyStrip s.tts_buffer) with
    | ok n =>
      simp only [hs]
      split
      · next hf =>
        intro p hp
        simp only [List.mem_append, List.mem_singleton] at hp
        rcases hp with hp | hp
        · exact h p hp
        · subst hp
          simp only [Bool.and_eq_true, Bool.not_eq_true'] at hf
          exact hf.1
      · exact fun p hp => h p hp
    | raises => simpa [hs] using h
  · exact h

/-- The playback wait never enqueues. -/
lemma alpacaWait_enqueues (drains : Bool) (s : SpeakState) :
    (alpacaWait drains s).enqueues = s.enqueues := by
  unfold alpacaWait
  split
  · rfl
  · split <;> rfl

/-- Every item AlpacaInteraction._speak hands to `play_audio` — i.e. enqueues
into the AudioPlayer's playback queue — carries a read of the interrupt event
that returned false. -/
lemma alpacaSpeak_enqueues (cfg : SpeakConfig) (fired : ℕ → Bool) (synth : Str → SynthResult)
    (drains : Bool) (ts : List Str) :
    ∀ p ∈ (alpacaSpeak cfg fired synth drains ts).enqueues, fired p.1 = false := by
  have hl := alpacaLoop_enqueues cfg fired synth ts initState (by simp [initState])
  have hf := alpacaFlush_enqueues fired synth
    (speakLoopGen (alpacaProcessTtsBuffer cfg fired synth) fired ts initState) hl
  intro p hp
  unfold alpacaSpeak at hp
  rw [alpacaWait_enqueues] at hp
  exact hf p hp

/-- C2: once the InterruptSignal (a monotone one-shot latch) has fired, no
further PlaybackItem is enqueued for the phase, in both Speak pipelines — the
`status_queue` audio puts of OutputHandler.speak and the `play_audio`
enqueues into the AudioPlayer queue made by AlpacaInteraction._speak: every
enqueued item's timestamp saw the signal unset, hence strictly precedes every
instant at which the signal is set — a chunk whose post-synthesis check sees
the signal set is dropped and the loop aborts, so no enqueue follows the
fire. -/
theorem C2_no_enqueue_after_fire (cfg : SpeakConfig) (fired : ℕ → Bool)
    (synth : Str → SynthResult) (ts : List Str) (drains : Bool)
    (hmono : ∀ i j : ℕ, i ≤ j → fired i = true → fired j = true)
    (t : ℕ) (c : Str)
    (hmem : (t, c) ∈ (speakOut cfg fired synth ts).enqueues
            ∨ (t, c) ∈ (alpacaSpeak cfg fired synth drains ts).enqueues) :
    fired t = false ∧ ∀ tf, fired tf = true → t < tf := by
  have hf : fired t = false := by
    rcases hmem with hmem | hmem
    · exact speakOut_enqueues cfg fired synth ts (t, c) hmem
    · exact alpacaSpeak_enqueues cfg fired synth drains ts (t, c) hmem
  refine ⟨hf, fun tf hft => ?_⟩
  by_contra hle
  push_neg at hle
  have := hmono tf t hle hft
  rw [hf] at this
  exact Bool.noConfusion this

/-- A latch that fires at clock tick 5. -/
def fired5 : ℕ → Bool := fun t => decide (5 ≤ t)

/-- Concrete instantiation of C2_no_enqueue_after_fire on the
AlpacaInteraction pipeline: with a latch firing at tick 5 on the stream
["Hi."], the chunk "Hi." enters the playback queue at tick 1, its read saw
the latch unset, and the enqueue precedes the fire. -/
theorem C2_witness : fired5 1 = false ∧ (1 : ℕ) < 5 := by
  have h := C2_no_enqueue_after_fire cfgSrc fired5 synthOk1 ["Hi.".toList] true
    (by
      intro i j hij hi
      simp only [fired5, decide_eq_true_eq] at hi ⊢
      omega)
    1 "Hi.".toList (Or.inr (by decide))
  exact ⟨h.1, h.2 5 (by decide)⟩

/- ========================================================================
   TTS-disabled path of the two speak variants (C8):
   output_handler.py lines 125-140 and alpaca_interaction.py lines 151-160.
   ======================================================================== -/

/-- The three shapes `speak` accepts: a sync generator, an async generator, or
a plain string. -/
inductive ResponseSource where
  | syncGen (tokens : List Str)
  | asyncGen (tokens : List Str)
  | strSource (text : Str)
deriving DecidableEq

/-- Result of a disabled-TTS speak call: the status string, the returned
`full_response_text`, the tokens actually pulled from the generator, and the
items put on the playback queue. -/
structure DisabledResult where
  status : String
  full_text : Str
  consumed : List Str
  playback_items : List Str
deriving DecidableEq

/-- OutputHandler.speak with `tts_enabled` false (lines 125-140): both
generator shapes are fully consumed and joined, a plain string is returned
as-is, and nothing is ever placed on the playback queue. -/
def outputSpeakDisabled : ResponseSource → DisabledResult
  | .syncGen ts => ⟨"DISABLED", ts.flatten, ts, []⟩
  | .asyncGen ts => ⟨"DISABLED", ts.flatten, ts, []⟩
  | .strSource t => ⟨"DISABLED", t, [], []⟩

/-- AlpacaInteraction._speak with TTS disabled (lines 151-160): the branch
tests `isinstance(response_source, str)` then
`isinstance(response_source, types.GeneratorType)`; an async generator
matches neither, so it is not consumed and `full_response_text` stays "". -/
def alpacaSpeakDisabled : ResponseSource → DisabledResult
  | .strSource t => ⟨"DISABLED", t, [], []⟩
  | .syncGen ts => ⟨"DISABLED", ts.flatten, ts, []⟩
  | .asyncGen _ => ⟨"DISABLED", [], [], []⟩

/-- The complete text a source carries. -/
def sourceFullText : ResponseSource → Str
  | .syncGen ts => ts.flatten
  | .asyncGen ts => ts.flatten
  | .strSource t => t

/-- The tokens a generator source carries (a plain string yields none). -/
def sourceTokens : ResponseSource → List Str
  | .syncGen ts => ts
  | .asyncGen ts => ts
  | .strSource _ => []

/-- C8 (amended): with TTS disabled, OutputHandler.speak consumes the entire
token source for all three shapes, returns DISABLED with the full concatenated
text, and leaves the playback queue empty; AlpacaInteraction._speak does the
same for a sync generator and a plain string, but an async generator is NOT
consumed — it returns DISABLED with the empty string. -/
theorem C8_disabled_consumption :
    (∀ src, outputSpeakDisabled src
        = ⟨"DISABLED", sourceFullText src, sourceTokens src, []⟩)
    ∧ (∀ ts, alpacaSpeakDisabled (.syncGen ts) = ⟨"DISABLED", ts.flatten, ts, []⟩)
    ∧ (∀ t, alpacaSpeakDisabled (.strSource t) = ⟨"DISABLED", t, [], []⟩)
    ∧ (∀ ts, alpacaSpeakDisabled (.asyncGen ts) = ⟨"DISABLED", [], [], []⟩) := by
  refine ⟨fun src => ?_, fun ts => rfl, fun t => rfl, fun ts => rfl⟩
  cases src <;> rfl

/-- C8 counterexample: with TTS disabled, AlpacaInteraction._speak on the
async generator yielding "Hello" returns full text "" and consumes nothing,
while the claim demands the full concatenated text "Hello" and complete
consumption. -/
theorem C8_counterexample :
    (alpacaSpeakDisabled (.asyncGen ["Hello".toList])).full_text = []
    ∧ (alpacaSpeakDisabled (.asyncGen ["Hello".toList])).consumed = []
    ∧ ["Hello".toList].flatten = "Hello".toList
    ∧ ("Hello".toList : Str) ≠ [] := by
  exact ⟨rfl, rfl, by decide, by decide⟩

/- ========================================================================
   Interaction state machine (C5, C10):
   src/core/alpaca_interaction.py, `run_single_interaction` (lines 265-317).
   ======================================================================== -/

/-- One conversation history record. -/
structure Message where
  role : String
  content : String
deriving DecidableEq

/-- The phases a turn can execute. -/
inductive Phase where
  | listening
  | processing
  | speaking
deriving DecidableEq

/-- The listen-failure codes checked at line 283. `_listen` always returns a
string (a `None` capture result is already mapped to "ERROR" at line 48), so
the `None` member of the Python list is unreachable. -/
def listen_failure_codes : List String := ["TIMEOUT_ERROR", "low_energy", "", "ERROR"]

/-- The canned reply built at lines 284-286: first the generic apology, then
overwritten for TIMEOUT_ERROR / low_energy / empty by the "didn\x27t catch
that" form (an empty transcription prints as "no input"). -/
def apology_text (t : String) : String :=
  if t = "TIMEOUT_ERROR" ∨ t = "low_energy" ∨ t = "" then
    "I didn\x27t quite catch that (" ++ (if t = "" then "no input" else t)
      ++ "). Could you please repeat?"
  else
    "Sorry, I encountered an issue: " ++ t ++ ". Please try again."

/-- Result of one turn: the returned status and response text, the
conversation history after the call, and the phases that actually ran. -/
structure InteractionResult where
  status : String
  response : String
  history : List Message
  phases : List Phase
deriving DecidableEq

/-- run_single_interaction (lines 278-311), parameterized by the transcription
`_listen` returned and by the outcome (status, full text) of
`_process_and_respond` plus `_speak`. On a listen failure it returns the
canned apology immediately — before `add_user_message` — so the history is
untouched; otherwise the user message is appended, speak runs, and a
non-empty response is appended as the assistant turn. -/
def run_single_interaction (history : List Message) (transcribed : String)
    (speak_outcome : String × String) : InteractionResult :=
  if transcribed ∈ listen_failure_codes then
    { status := if transcribed = "" then "ERROR" else transcribed
      response := apology_text transcribed
      history := history
      phases := [.listening] }
  else
    let h1 := history ++ [⟨"user", transcribed⟩]
    let h2 := if speak_outcome.2 ≠ "" then h1 ++ [⟨"assistant", speak_outcome.2⟩] else h1
    { status := speak_outcome.1
      response := speak_outcome.2
      history := h2
      phases := [.listening, .processing, .speaking] }

/-- C10: when Listening fails (TIMEOUT_ERROR, low_energy, empty transcription,
or ERROR — a `None` capture already surfaces as "ERROR"), the turn returns
before any history mutation: the conversation history after the call is
exactly what it was before, and only the Listening phase ran. -/
theorem C10_listen_failure_atomic (history : List Message) (t : String)
    (speak_outcome : String × String) (hfail : t ∈ listen_failure_codes) :
    (run_single_interaction history t speak_outcome).history = history
    ∧ (run_single_interaction history t speak_outcome).phases = [.listening] := by
  unfold run_single_interaction
  rw [if_pos hfail]
  exact ⟨rfl, rfl⟩

/-- Concrete instantiation of C10_listen_failure_atomic at a TIMEOUT_ERROR
transcription and an empty starting history. -/
theorem C10_witness :
    (run_single_interaction [] "TIMEOUT_ERROR" ("COMPLETED", "ok")).history = [] :=
  (C10_listen_failure_atomic [] "TIMEOUT_ERROR" ("COMPLETED", "ok") (by decide)).1

/-- C5 (amended): on a Listening failure the turn short-circuits — Processing
and Speaking are skipped — and the canned apology is printed and RETURNED as
the turn's response text, but it is NOT appended to the conversation history
(the history is returned unchanged); the returned status is the failure code
itself (with "" mapped to "ERROR"). -/
theorem C5_short_circuit (history : List Message) (t : String)
    (speak_outcome : String × String) (hfail : t ∈ listen_failure_codes) :
    (run_single_interaction history t speak_outcome).phases = [.listening]
    ∧ (run_single_interaction history t speak_outcome).response = apology_text t
    ∧ (run_single_interaction history t speak_outcome).history = history
    ∧ (run_single_interaction history t speak_outcome).status
        = (if t = "" then "ERROR" else t) := by
  unfold run_single_interaction
  rw [if_pos hfail]
  exact ⟨rfl, rfl, rfl, rfl⟩

/-- Concrete instantiation of C5_short_circuit at a low_energy failure. -/
theorem C5_witness :
    (run_single_interaction [] "low_energy" ("COMPLETED", "ok")).response
      = apology_text "low_energy" :=
  (C5_short_circuit [] "low_energy" ("COMPLETED", "ok") (by decide)).2.1

/-- C5 counterexample: on a TIMEOUT_ERROR listen failure the history stays
empty — in particular the canned apology is not appended to it, though it is
produced as the returned response text. -/
theorem C5_counterexample :
    (run_single_interaction [] "TIMEOUT_ERROR" ("COMPLETED", "x")).history = []
    ∧ (run_single_interaction [] "TIMEOUT_ERROR" ("COMPLETED", "x")).response
        = "I didn\x27t quite catch that (TIMEOUT_ERROR). Could you please repeat?"
    ∧ (run_single_interaction [] "TIMEOUT_ERROR" ("COMPLETED", "x")).history.length = 0 := by
  exact ⟨by decide, by decide, by decide⟩

/- ========================================================================
   Audio playback engine (C6, C9):
   src/components/audio_player.py, `wait_for_playback_complete` (lines
   126-178) and `stop_playback` (lines 180-205).
   ======================================================================== -/

/-- Python runtime error raised by the embedded control flow. -/
inductive PyRunError where
  | unboundLocal (name : String)
deriving DecidableEq

/-- Player state as read by `wait_for_playback_complete`. -/
structure PlayerWaitState where
  is_playing : Bool
  queue_empty : Bool
  total_audio_duration : ℚ
deriving DecidableEq

/-- The dynamic drain timeout of line 144:
`min(max(estimated_remaining * 1.5 + 2.0, 5.0), 60.0)`. -/
def drain_timeout_formula (estimated_remaining : ℚ) : ℚ :=
  min (max (estimated_remaining * 3 / 2 + 2) 5) 60

/-- wait_for_playback_complete (lines 126-178). Return value: `ok (done,
forced)` where `done` is the function's boolean result and `forced` records
whether `stop_playback(force=True)` was invoked. The polling loops (lines
152-167) are abstracted by `drainsInTime`: `true` when the worker empties the
queue and clears `is_playing` before the deadline, `false` when it stalls to
the deadline, after which line 172 forces a stop and line 173 returns False.
The variable `estimated_remaining` is assigned only inside the
`timeout is None` branch (line 143) yet read unconditionally by the progress
log at line 146, so any call that passes an explicit timeout while playback
is pending raises UnboundLocalError. -/
def wait_for_playback_complete (st : PlayerWaitState) (drainsInTime : Bool)
    (timeout : Option ℚ) : Except PyRunError (Bool × Bool) :=
  if !st.is_playing && st.queue_empty then
    .ok (true, false)
  else
    match timeout with
    | none =>
      let estimated_remaining := st.total_audio_duration
      let _deadline := drain_timeout_formula estimated_remaining
      if drainsInTime then .ok (true, false) else .ok (false, true)
    | some _ => .error (.unboundLocal "estimated_remaining")

/-- C6 (code bug): a call with an explicit timeout while playback is pending
raises UnboundLocalError on `estimated_remaining` instead of returning within
the timeout — contradicting the function's own docstring ("Returns: bool") —
while the default-timeout path does behave as specified: an already-idle
player returns True immediately, a stalled worker yields False with a forced
stop, and the dynamic deadline is clamp(duration*1.5+2.0, 5.0, 60.0). -/
theorem C6_explicit_timeout_raises :
    wait_for_playback_complete ⟨true, false, 3⟩ true (some 2)
        = .error (.unboundLocal "estimated_remaining")
    ∧ wait_for_playback_complete ⟨true, false, 3⟩ false none = .ok (false, true)
    ∧ wait_for_playback_complete ⟨true, false, 3⟩ true none = .ok (true, false)
    ∧ wait_for_playback_complete ⟨false, true, 0⟩ true (some 2) = .ok (true, false)
    ∧ drain_timeout_formula 3 = 13/2
    ∧ drain_timeout_formula 1 = 5
    ∧ drain_timeout_formula 100 = 60 := by
  refine ⟨rfl, rfl, rfl, rfl, ?_, ?_, ?_⟩ <;>
    norm_num [drain_timeout_formula]

/-- Player state as touched by `stop_playback`. `silence_writes` counts short
silence buffers written to the output sink during a stop; AudioPlayer's
stop_playback contains no such write (the historical
utils/audio_handler.py variant did enqueue 0.1 s of silence). -/
structure PlayerStopState where
  is_playing : Bool
  should_stop_playback : Bool
  queue : List (ℕ × ℚ)
  total_audio_duration : ℚ
  silence_writes : ℕ
deriving DecidableEq

/-- stop_playback (lines 180-205): when playing or forced, set the halt
event, drain and discard every queued item, reset the playing flag and the
duration tracker; otherwise do nothing. No silence buffer is written. -/
def stop_playback (st : PlayerStopState) (force : Bool) : PlayerStopState :=
  if st.is_playing || force then
    { st with should_stop_playback := true
              queue := []
              is_playing := false
              total_audio_duration := 0 }
  else st

/-- C9 (amended): stop(force) signals the worker to halt, drains and discards
every queued item, clears the playing flag, and is idempotent — a second call
on the stopped state (forced or not) changes nothing and cannot raise (the
model is total) — but it writes NO silence buffer to the hardware. -/
theorem C9_stop_behavior (st : PlayerStopState) :
    (stop_playback st true).should_stop_playback = true
    ∧ (stop_playback st true).queue = []
    ∧ (stop_playback st true).is_playing = false
    ∧ (stop_playback st true).silence_writes = st.silence_writes
    ∧ stop_playback (stop_playback st true) false = stop_playback st true
    ∧ stop_playback (stop_playback st true) true = stop_playback st true
    ∧ (st.is_playing = false → stop_playback st false = st) := by
  have hbase : stop_playback st true
      = { st with should_stop_playback := true
                  queue := []
                  is_playing := false
                  total_audio_duration := 0 } := by
    unfold stop_playback
    simp
  refine ⟨by rw [hbase], by rw [hbase], by rw [hbase], by rw [hbase], ?_, ?_, ?_⟩
  · rw [hbase]
    unfold stop_playback
    simp
  · rw [hbase]
    unfold stop_playback
    simp
  · intro h
    unfold stop_playback
    rw [h]
    simp

/-- Concrete instantiation of C9_stop_behavior's idempotency at an
already-stopped player state. -/
theorem C9_witness :
    stop_playback ⟨false, false, [], 0, 0⟩ false = ⟨false, false, [], 0, 0⟩ :=
  (C9_stop_behavior ⟨false, false, [], 0, 0⟩).2.2.2.2.2.2 rfl

/-- C9 counterexample: stopping a playing player with a queued item drains
the queue and halts, but performs zero silence writes — the claimed "short
silence buffer to flush the hardware" does not exist in stop_playback. -/
theorem C9_counterexample :
    stop_playback ⟨true, false, [(100, 22050)], 2, 0⟩ true
        = ⟨false, true, [], 0, 0⟩
    ∧ (stop_playback ⟨true, false, [(100, 22050)], 2, 0⟩ true).silence_writes = 0 := by
  constructor <;> rfl

end AlpacaAI
